import Mathlib

/-!
# Verification of the ChatGLM2 LoRA fine-tuning driver (`src/chatglm2/main_lora.py`)

The repository consists of a single orchestration script, `main_lora.py`,
whose `main` function is straight-line wiring: parse arguments, set the
random seed, load tokenizer and model, wrap the model with a LoRA adapter,
preprocess dataset splits, build a data collator, construct a
`Seq2SeqTrainer`, and delegate training / prediction to it.

We shallowly embed `main` as a pure Lean function.  Every externally
observable action of the script (each library call it performs) becomes an
`Event`; running the embedded `main` yields an `Outcome` carrying the list
of events in program order, mirroring the Python control flow, including
the early return when no stage flag is set, the `KeyError` raised by a
`DatasetDict` lookup of a missing split, and the explicit `ValueError`
raises.  Results of external library calls that `main` branches on
(the loaded `DatasetDict`, `tokenizer.pad_token_id`,
`trainer.is_world_process_zero()`) are supplied as an `Env` record.

Aspects with no bearing on control flow or on the data handed to the
libraries — logging calls, `time.sleep`, attribute flips such as
`model.is_parallelizable`, CUDA device placement details, and the values
inside the datasets — are not modelled, except that device movement
(`.half()`, `.cuda()`) is kept in the `Model` constructor tower so that the
exact model object handed to the trainer is visible.
-/

namespace MainLora

/-- `arguments.py` dataclass `ModelArguments` (not under `src/`):
fields modelled from their uses in `main_lora.py`
(`model_name_or_path` at lines 74 and 77, `cache_dir` at line 107). -/
structure ModelArguments where
  model_name_or_path : String
  cache_dir : Option String
deriving DecidableEq, Repr

/-- `arguments.py` dataclass `DataTrainingArguments` (not under `src/`):
fields modelled from their uses in `main_lora.py` (lines 131-186, 230).
`max_source_length` and `max_target_length` are token counts. -/
structure DataTrainingArguments where
  max_source_length : Nat
  max_target_length : Nat
  ignore_pad_token_for_loss : Bool
  preprocessing_num_workers : Option Nat
  overwrite_cache : Bool
deriving DecidableEq, Repr

/-- `arguments.py` dataclass `PeftArguments` (not under `src/`): fields
modelled from their uses in `main_lora.py` (lines 86-88, 93-95, 202).
`lora_rank` is optional: line 202 tests `peft_args.lora_rank is not None`.
`lora_alpha` and `lora_dropout` are Python floats that `main` only passes
through to `LoraConfig`, never computes with; they are embedded as opaque
rational values. -/
structure PeftArguments where
  lora_rank : Option Nat
  lora_alpha : Rat
  lora_dropout : Rat
  lora_checkpoint : Option String
deriving DecidableEq, Repr

/-- The fields of the (external) `transformers.Seq2SeqTrainingArguments`
that `main_lora.py` reads or writes.  `generation_max_length` and
`generation_num_beams` are `Optional[int]` in the library and are
overwritten by `main` at lines 186-187. -/
structure Seq2SeqTrainingArguments where
  do_train : Bool
  do_eval : Bool
  do_predict : Bool
  seed : Nat
  output_dir : String
  local_rank : Int
  resume_from_checkpoint : Option String
  generation_max_length : Option Nat
  generation_num_beams : Option Nat
  ddp_find_unused_parameters : Option Bool
  fp16 : Bool
deriving DecidableEq, Repr

/-- The `peft.TaskType` enum values relevant here; `main` uses only
`CAUSAL_LM` (line 84). -/
inductive TaskType where
  | CAUSAL_LM
  | SEQ_2_SEQ_LM
deriving DecidableEq, Repr

/-- The `peft.LoraConfig` fields that `main_lora.py` sets (lines 83-90). -/
structure LoraConfig where
  task_type : TaskType
  inference_mode : Bool
  r : Option Nat
  lora_alpha : Rat
  lora_dropout : Rat
  target_modules : List String
deriving DecidableEq, Repr

/-- The model object as transformed by `main` (lines 77-91):
`AutoModel.from_pretrained(...)`, then `.half()`, then
`get_peft_model(..., peft_config)`, then `.cuda()`. -/
inductive Model where
  | pretrained (path : String)
  | half (base : Model)
  | peft (base : Model) (config : LoraConfig)
  | cuda (base : Model)
deriving DecidableEq, Repr

/-- The `DataCollatorForSeq2Seq` construction arguments that
`main_lora.py` chooses (lines 173-180).  `label_pad_token_id` is an Int
because `main` may pass the literal `-100`. -/
structure DataCollatorForSeq2Seq where
  label_pad_token_id : Int
  pad_to_multiple_of : Option Nat
  padding : Bool
deriving DecidableEq, Repr

/-- A dataset split as far as `main` inspects it: only its column names
(line 115/117/119) matter to the script's own logic. -/
structure Dataset where
  column_names : List String
deriving DecidableEq, Repr

/-- The `DatasetDict` returned by `load_raw_datasets` (line 107), holding
the three split keys `main` ever looks up. -/
structure DatasetDict where
  train : Option Dataset
  validation : Option Dataset
  test : Option Dataset
deriving DecidableEq, Repr

/-- Python `raw_datasets[key]` lookup domain: `raw.get? key` is `some`
exactly when `key in raw_datasets` holds for the three split names. -/
def DatasetDict.get? (raw : DatasetDict) (key : String) : Option Dataset :=
  if key = "train" then raw.train
  else if key = "validation" then raw.validation
  else if key = "test" then raw.test
  else none

/-- Results of external calls that `main` branches on or forwards:
the loaded raw datasets, the tokenizer's `pad_token_id` (a vocabulary
index, hence a natural number; the ChatGLM tokenizer defines one), and
`trainer.is_world_process_zero()` (line 237). -/
structure Env where
  raw_datasets : DatasetDict
  pad_token_id : Nat
  is_world_process_zero : Bool
deriving DecidableEq, Repr

/-- The Python exceptions `main` can raise: `KeyError` from a
`DatasetDict` lookup of a missing split, and the explicit `ValueError`
raises at lines 126, 143, 159. -/
inductive PyError where
  | keyError (key : String)
  | valueError (msg : String)
deriving DecidableEq, Repr

/-- The keyword arguments of the `Seq2SeqTrainer` construction
(lines 194-203).  `train_dataset_present` / `eval_dataset_present` record
whether a dataset (rather than `None`) was passed. -/
structure TrainerCtor where
  model : Model
  args : Seq2SeqTrainingArguments
  train_dataset_present : Bool
  eval_dataset_present : Bool
  data_collator : DataCollatorForSeq2Seq
  save_changed : Bool
deriving DecidableEq, Repr

/-- One externally observable action of `main`, in program order.
Constructor order follows the source; each constructor records the
arguments `main` passes that the script itself computed. -/
inductive Event where
  | parseArgs
  | setSeed (seed : Nat)
  | loadTokenizer (path : String)
  | loadPretrainedModel (path : String)
  | getPeftModel (config : LoraConfig)
  | loadStateDict (path : String) (strict : Bool)
  | distributedBarrier
  | loadRawDatasets
  | shuffleSplit (split : String) (seed : Nat)
  | mapPreprocess (split : String) (fn : String)
  | printDatasetExample (split : String)
  | buildCollator (c : DataCollatorForSeq2Seq)
  | constructTrainer (tc : TrainerCtor)
  | gradientCheckpointingEnable
  | enableInputRequireGrads
  | trainerTrain (resume : Option String)
  | trainerLogMetrics (split : String)
  | trainerSaveMetrics (split : String)
  | trainerSaveState
  | trainerPredict (max_new_tokens : Nat) (num_beams : Option Nat) (do_sample : Bool)
  | savePredictions (output_dir : String)
deriving DecidableEq, Repr

/-- The `LoraConfig` literal built at lines 83-90 of `main_lora.py`:
`task_type=TaskType.CAUSAL_LM, inference_mode=False, r=peft_args.lora_rank,
lora_alpha=peft_args.lora_alpha, lora_dropout=peft_args.lora_dropout,
target_modules=["query_key_value"]`. -/
def peftConfigOf (pa : PeftArguments) : LoraConfig :=
  { task_type := TaskType.CAUSAL_LM
    inference_mode := false
    r := pa.lora_rank
    lora_alpha := pa.lora_alpha
    lora_dropout := pa.lora_dropout
    target_modules := ["query_key_value"] }

/-- The model value at line 91:
`get_peft_model(AutoModel.from_pretrained(path).half(), peft_config).cuda()`. -/
def modelOf (ma : ModelArguments) (pa : PeftArguments) : Model :=
  Model.cuda (Model.peft (Model.half (Model.pretrained ma.model_name_or_path)) (peftConfigOf pa))

/-- The collator construction at lines 173-180:
`label_pad_token_id = -100 if data_args.ignore_pad_token_for_loss else
tokenizer.pad_token_id`, `pad_to_multiple_of=None`, `padding=False`. -/
def collatorOf (da : DataTrainingArguments) (env : Env) : DataCollatorForSeq2Seq :=
  { label_pad_token_id := if da.ignore_pad_token_for_loss then -100 else (env.pad_token_id : Int)
    pad_to_multiple_of := none
    padding := false }

/-- The in-place mutation of `training_args` at lines 185-191:
`generation_max_length = max_source_length + max_target_length + 1`,
`generation_num_beams = 1`, and `ddp_find_unused_parameters = False` when
`local_rank != -1`. -/
def overrideGenArgs (da : DataTrainingArguments) (ta : Seq2SeqTrainingArguments) :
    Seq2SeqTrainingArguments :=
  { ta with
    generation_max_length := some (da.max_source_length + da.max_target_length + 1)
    generation_num_beams := some 1
    ddp_find_unused_parameters :=
      if ta.local_rank ≠ -1 then some false else ta.ddp_find_unused_parameters }

/-- The `Seq2SeqTrainer(...)` keyword arguments at lines 194-203:
datasets are passed only when the corresponding flag is set
(`train_dataset=train_dataset if training_args.do_train else None`, same
for eval), and `save_changed=peft_args.lora_rank is not None`. -/
def mkTrainerCtor (model : Model) (args : Seq2SeqTrainingArguments)
    (dc : DataCollatorForSeq2Seq) (pa : PeftArguments) : TrainerCtor :=
  { model := model
    args := args
    train_dataset_present := args.do_train
    eval_dataset_present := args.do_eval
    data_collator := dc
    save_changed := pa.lora_rank.isSome }

/-- Events of the unconditional part of `main` (lines 35-107): argument
parsing, `set_seed(training_args.seed)` (line 71), tokenizer and model
loading (lines 74-77), LoRA wrapping (line 91), the optional non-strict
state-dict load from `os.path.join(lora_checkpoint, "pytorch_model.bin")`
(lines 93-98), the distributed barrier when `local_rank != -1`
(lines 103-104), and `load_raw_datasets` (line 107). -/
def preambleTrace (ma : ModelArguments) (pa : PeftArguments)
    (ta : Seq2SeqTrainingArguments) : List Event :=
  [Event.parseArgs, Event.setSeed ta.seed,
   Event.loadTokenizer ma.model_name_or_path,
   Event.loadPretrainedModel ma.model_name_or_path,
   Event.getPeftModel (peftConfigOf pa)]
  ++ (match pa.lora_checkpoint with
      | some ckpt => [Event.loadStateDict (ckpt ++ "/pytorch_model.bin") false]
      | none => [])
  ++ (if ta.local_rank ≠ -1 then [Event.distributedBarrier] else [])
  ++ [Event.loadRawDatasets]

/-- Lines 124-139: when `do_train`, shuffle the train split with
`training_args.seed` (line 128), map `preprocess_function_train` over it
(lines 131-138), and print an example (line 139). -/
def trainPrepSeg (ta : Seq2SeqTrainingArguments) : List Event :=
  if ta.do_train then
    [Event.shuffleSplit "train" ta.seed,
     Event.mapPreprocess "train" "preprocess_function_train",
     Event.printDatasetExample "train"]
  else []

/-- Lines 141-155: when `do_eval`, map `preprocess_function_eval` over the
validation split (no shuffle) and print an example. -/
def evalPrepSeg (ta : Seq2SeqTrainingArguments) : List Event :=
  if ta.do_eval then
    [Event.mapPreprocess "validation" "preprocess_function_eval",
     Event.printDatasetExample "validation"]
  else []

/-- Lines 157-170: when `do_predict`, map `preprocess_function_eval` over
the test split (no shuffle) and print an example. -/
def predictPrepSeg (ta : Seq2SeqTrainingArguments) : List Event :=
  if ta.do_predict then
    [Event.mapPreprocess "test" "preprocess_function_eval",
     Event.printDatasetExample "test"]
  else []

/-- Lines 207-224: when `do_train`, enable gradient checkpointing and
input grads, call `trainer.train(resume_from_checkpoint=checkpoint)`, then
log metrics, save metrics, save state.  `ta` is `training_args` after the
line-186 overrides. -/
def trainRunSeg (ta : Seq2SeqTrainingArguments) : List Event :=
  if ta.do_train then
    [Event.gradientCheckpointingEnable, Event.enableInputRequireGrads,
     Event.trainerTrain ta.resume_from_checkpoint,
     Event.trainerLogMetrics "train", Event.trainerSaveMetrics "train",
     Event.trainerSaveState]
  else []

/-- Lines 228-238: when `do_predict`, call `trainer.predict(...,
max_new_tokens=data_args.max_target_length,
num_beams=training_args.generation_num_beams, do_sample=False)`, log and
save metrics, and — only when `trainer.is_world_process_zero()` — call the
`save_predictions` helper from the `evaluator` module (imported at
line 26) with `training_args.output_dir`. -/
def predictRunSeg (da : DataTrainingArguments) (ta : Seq2SeqTrainingArguments)
    (env : Env) : List Event :=
  if ta.do_predict then
    [Event.trainerPredict da.max_target_length ta.generation_num_beams false,
     Event.trainerLogMetrics "predict", Event.trainerSaveMetrics "predict"]
    ++ (if env.is_world_process_zero then [Event.savePredictions ta.output_dir] else [])
  else []

/-- The complete event trace of a run of `main` that reaches the end of
the function (no early return, no exception). -/
def fullTrace (ma : ModelArguments) (da : DataTrainingArguments) (pa : PeftArguments)
    (ta : Seq2SeqTrainingArguments) (env : Env) : List Event :=
  preambleTrace ma pa ta
    ++ trainPrepSeg ta ++ evalPrepSeg ta ++ predictPrepSeg ta
    ++ [Event.buildCollator (collatorOf da env),
        Event.constructTrainer
          (mkTrainerCtor (modelOf ma pa) (overrideGenArgs da ta) (collatorOf da env) pa)]
    ++ trainRunSeg (overrideGenArgs da ta)
    ++ predictRunSeg da (overrideGenArgs da ta) env

/-- Result of the `column_names` selection at lines 114-122.  The Python
code indexes `raw_datasets[...]` here, before the per-stage
`"..." in raw_datasets` membership checks, so a missing split raises
`KeyError` at this point; when no flag is set, `main` logs and returns. -/
inductive ColSel where
  | nothing
  | raised (e : PyError)
  | cols (cs : List String)
deriving DecidableEq, Repr

/-- Lines 114-122 of `main_lora.py`. -/
def selectColumnNames (ta : Seq2SeqTrainingArguments) (raw : DatasetDict) : ColSel :=
  if ta.do_train then
    match raw.get? "train" with
    | some d => ColSel.cols d.column_names
    | none => ColSel.raised (PyError.keyError "train")
  else if ta.do_eval then
    match raw.get? "validation" with
    | some d => ColSel.cols d.column_names
    | none => ColSel.raised (PyError.keyError "validation")
  else if ta.do_predict then
    match raw.get? "test" with
    | some d => ColSel.cols d.column_names
    | none => ColSel.raised (PyError.keyError "test")
  else ColSel.nothing

/-- How a run of `main` ends: normal completion (`return results`,
line 241), the early `return` at line 122, or a raised exception.  Each
constructor carries the events performed up to that point. -/
inductive Outcome where
  | finished (trace : List Event)
  | nothingToDo (trace : List Event)
  | raised (e : PyError) (trace : List Event)
deriving DecidableEq, Repr

/-- The events a run performed, whatever its outcome. -/
def Outcome.trace : Outcome → List Event
  | Outcome.finished t => t
  | Outcome.nothingToDo t => t
  | Outcome.raised _ t => t

/-- The `main` function of `main_lora.py` (lines 32-241), embedded as the
outcome of the run on the given parsed arguments and external environment.
Control flow in source order: the unconditional preamble (lines 35-107),
the `column_names` selection with its early return / `KeyError`
(lines 114-122), the three per-stage membership checks each raising
`ValueError` before that stage's preprocessing (lines 125-126, 142-143,
158-159), and otherwise the full trace through collator construction,
trainer construction, training and prediction. -/
def main (ma : ModelArguments) (da : DataTrainingArguments) (pa : PeftArguments)
    (ta : Seq2SeqTrainingArguments) (env : Env) : Outcome :=
  match selectColumnNames ta env.raw_datasets with
  | ColSel.nothing => Outcome.nothingToDo (preambleTrace ma pa ta)
  | ColSel.raised e => Outcome.raised e (preambleTrace ma pa ta)
  | ColSel.cols _ =>
    if ta.do_train && (env.raw_datasets.get? "train").isNone then
      Outcome.raised (PyError.valueError "--do_train requires a train dataset")
        (preambleTrace ma pa ta)
    else if ta.do_eval && (env.raw_datasets.get? "validation").isNone then
      Outcome.raised (PyError.valueError "--do_eval requires a validation dataset")
        (preambleTrace ma pa ta ++ trainPrepSeg ta)
    else if ta.do_predict && (env.raw_datasets.get? "test").isNone then
      Outcome.raised (PyError.valueError "--do_predict requires a test dataset")
        (preambleTrace ma pa ta ++ trainPrepSeg ta ++ evalPrepSeg ta)
    else
      Outcome.finished (fullTrace ma da pa ta env)

/-! ## Event classifiers -/

def Event.isParseArgs : Event → Bool
  | Event.parseArgs => true
  | _ => false

def Event.isSetSeed : Event → Bool
  | Event.setSeed _ => true
  | _ => false

def Event.isLoadTokenizer : Event → Bool
  | Event.loadTokenizer _ => true
  | _ => false

def Event.isLoadPretrainedModel : Event → Bool
  | Event.loadPretrainedModel _ => true
  | _ => false

def Event.isGetPeftModel : Event → Bool
  | Event.getPeftModel _ => true
  | _ => false

def Event.isLoadStateDict : Event → Bool
  | Event.loadStateDict _ _ => true
  | _ => false

def Event.isShuffleSplit : Event → Bool
  | Event.shuffleSplit _ _ => true
  | _ => false

def Event.isMapPreprocess : Event → Bool
  | Event.mapPreprocess _ _ => true
  | _ => false

def Event.isBuildCollator : Event → Bool
  | Event.buildCollator _ => true
  | _ => false

def Event.isConstructTrainer : Event → Bool
  | Event.constructTrainer _ => true
  | _ => false

def Event.isTrainerTrain : Event → Bool
  | Event.trainerTrain _ => true
  | _ => false

def Event.isTrainerPredict : Event → Bool
  | Event.trainerPredict _ _ _ => true
  | _ => false

def Event.isSavePredictions : Event → Bool
  | Event.savePredictions _ => true
  | _ => false

/-- Whether an event is an operation of the `Seq2SeqTrainer` object
itself: its construction (line 194) or one of its method calls
(`train`, `log_metrics`, `save_metrics`, `save_state`, `predict`,
lines 217-235).  `save_predictions` (line 238) is not one: it is a free
function imported from the `evaluator` module at line 26. -/
def Event.isTrainerOp : Event → Bool
  | Event.constructTrainer _ => true
  | Event.trainerTrain _ => true
  | Event.trainerLogMetrics _ => true
  | Event.trainerSaveMetrics _ => true
  | Event.trainerSaveState => true
  | Event.trainerPredict _ _ _ => true
  | _ => false

/-- The position of each event kind in the source-order pipeline of
`main`.  Two events with equal phase may occur in either order; an event
with a smaller phase always occurs earlier in the trace
(`fullTrace_phase_pairwise`). -/
def Event.phase : Event → Nat
  | Event.parseArgs => 0
  | Event.setSeed _ => 1
  | Event.loadTokenizer _ => 2
  | Event.loadPretrainedModel _ => 3
  | Event.getPeftModel _ => 4
  | Event.loadStateDict _ _ => 5
  | Event.distributedBarrier => 6
  | Event.loadRawDatasets => 7
  | Event.shuffleSplit _ _ => 8
  | Event.mapPreprocess _ _ => 9
  | Event.printDatasetExample _ => 9
  | Event.buildCollator _ => 10
  | Event.constructTrainer _ => 11
  | Event.gradientCheckpointingEnable => 12
  | Event.enableInputRequireGrads => 13
  | Event.trainerTrain _ => 14
  | Event.trainerLogMetrics s => if s = "train" then 15 else 19
  | Event.trainerSaveMetrics s => if s = "train" then 16 else 20
  | Event.trainerSaveState => 17
  | Event.trainerPredict _ _ _ => 18
  | Event.savePredictions _ => 21

/-- Every event selected by `p` occurs strictly before every event
selected by `q` in the list `l`. -/
def eventsBefore (p q : Event → Bool) (l : List Event) : Prop :=
  ∀ i j, (hi : i < l.length) → (hj : j < l.length) →
    p (l.get ⟨i, hi⟩) = true → q (l.get ⟨j, hj⟩) = true → i < j

/-! ## Helper lemmas -/

/-- A run of `main` that completes normally produced exactly `fullTrace`. -/
theorem main_finished_trace {ma : ModelArguments} {da : DataTrainingArguments}
    {pa : PeftArguments} {ta : Seq2SeqTrainingArguments} {env : Env} {tr : List Event}
    (h : main ma da pa ta env = Outcome.finished tr) :
    tr = fullTrace ma da pa ta env := by
  unfold main at h
  split at h
  · exact absurd h (by simp)
  · exact absurd h (by simp)
  · split at h
    · exact absurd h (by simp)
    · split at h
      · exact absurd h (by simp)
      · split at h
        · exact absurd h (by simp)
        · injection h with h
          exact h.symm

set_option maxHeartbeats 4000000 in
/-- The phases of the events of `fullTrace` are monotone: the trace
respects the source-order pipeline. -/
theorem fullTrace_phase_pairwise (ma : ModelArguments) (da : DataTrainingArguments)
    (pa : PeftArguments) (ta : Seq2SeqTrainingArguments) (env : Env) :
    ((fullTrace ma da pa ta env).map Event.phase).Sorted (fun a b => a ≤ b) := by
  rcases hck : pa.lora_checkpoint with _ | ckpt <;>
  cases hdt : ta.do_train <;> cases hde : ta.do_eval <;> cases hdp : ta.do_predict <;>
  cases hwz : env.is_world_process_zero <;>
  rcases eq_or_ne ta.local_rank (-1) with hlr | hlr <;>
  simp only [fullTrace, preambleTrace, trainPrepSeg, evalPrepSeg, predictPrepSeg,
    trainRunSeg, predictRunSeg, overrideGenArgs, hck, hdt, hde, hdp, hwz, hlr,
    ne_eq, not_true, not_false_iff, if_true, if_false, Bool.false_eq_true,
    ite_true, ite_false, List.append_nil, List.nil_append, List.map_append, List.map_cons,
    List.map_nil, Event.phase] <;>
  decide

/-- An ordering principle for `main` traces: if every `p`-event has a
strictly smaller phase than every `q`-event, then in a phase-monotone
trace every `p`-event precedes every `q`-event. -/
theorem eventsBefore_of_phase_lt {l : List Event} {p q : Event → Bool}
    (hs : (l.map Event.phase).Sorted (fun a b => a ≤ b))
    (hpq : ∀ e e', p e = true → q e' = true → e.phase < e'.phase) :
    eventsBefore p q l := by
  intro i j hi hj hpi hqj
  by_contra hij
  push_neg at hij
  have h1 : Event.phase (l.get ⟨i, hi⟩) < Event.phase (l.get ⟨j, hj⟩) := hpq _ _ hpi hqj
  rcases Nat.eq_or_lt_of_le hij with heq | hlt
  · have : (⟨i, hi⟩ : Fin l.length) = ⟨j, hj⟩ := by
      apply Fin.ext
      exact heq.symm
    rw [this] at h1
    exact absurd h1 (lt_irrefl _)
  · have hmono := (List.pairwise_iff_getElem.mp hs) j i
      (by simpa using hj) (by simpa using hi) hlt
    simp only [List.getElem_map] at hmono
    have hgi : l[i] = l.get ⟨i, hi⟩ := rfl
    have hgj : l[j] = l.get ⟨j, hj⟩ := rfl
    rw [hgi, hgj] at hmono
    omega

set_option maxHeartbeats 4000000 in
/-- The only `getPeftModel` event in a full trace is the one with the
LoRA configuration of lines 83-90, and it is always present. -/
theorem getPeftModel_mem (ma : ModelArguments) (da : DataTrainingArguments)
    (pa : PeftArguments) (ta : Seq2SeqTrainingArguments) (env : Env) (cfg : LoraConfig) :
    Event.getPeftModel cfg ∈ fullTrace ma da pa ta env ↔ cfg = peftConfigOf pa := by
  rcases hck : pa.lora_checkpoint with _ | ckpt <;>
  cases hdt : ta.do_train <;> cases hde : ta.do_eval <;> cases hdp : ta.do_predict <;>
  cases hwz : env.is_world_process_zero <;>
  rcases eq_or_ne ta.local_rank (-1) with hlr | hlr <;>
  simp [fullTrace, preambleTrace, trainPrepSeg, evalPrepSeg, predictPrepSeg,
    trainRunSeg, predictRunSeg, hck, hdt, hde, hdp, hwz, hlr]

set_option maxHeartbeats 4000000 in
/-- The only `constructTrainer` event in a full trace carries exactly the
keyword arguments of lines 194-203, and it is always present. -/
theorem constructTrainer_mem (ma : ModelArguments) (da : DataTrainingArguments)
    (pa : PeftArguments) (ta : Seq2SeqTrainingArguments) (env : Env) (tc : TrainerCtor) :
    Event.constructTrainer tc ∈ fullTrace ma da pa ta env ↔
      tc = mkTrainerCtor (modelOf ma pa) (overrideGenArgs da ta) (collatorOf da env) pa := by
  rcases hck : pa.lora_checkpoint with _ | ckpt <;>
  cases hdt : ta.do_train <;> cases hde : ta.do_eval <;> cases hdp : ta.do_predict <;>
  cases hwz : env.is_world_process_zero <;>
  rcases eq_or_ne ta.local_rank (-1) with hlr | hlr <;>
  simp [fullTrace, preambleTrace, trainPrepSeg, evalPrepSeg, predictPrepSeg,
    trainRunSeg, predictRunSeg, hck, hdt, hde, hdp, hwz, hlr]

set_option maxHeartbeats 4000000 in
/-- The only `buildCollator` event in a full trace carries exactly the
collator of lines 173-180, and it is always present. -/
theorem buildCollator_mem (ma : ModelArguments) (da : DataTrainingArguments)
    (pa : PeftArguments) (ta : Seq2SeqTrainingArguments) (env : Env)
    (c : DataCollatorForSeq2Seq) :
    Event.buildCollator c ∈ fullTrace ma da pa ta env ↔ c = collatorOf da env := by
  rcases hck : pa.lora_checkpoint with _ | ckpt <;>
  cases hdt : ta.do_train <;> cases hde : ta.do_eval <;> cases hdp : ta.do_predict <;>
  cases hwz : env.is_world_process_zero <;>
  rcases eq_or_ne ta.local_rank (-1) with hlr | hlr <;>
  simp [fullTrace, preambleTrace, trainPrepSeg, evalPrepSeg, predictPrepSeg,
    trainRunSeg, predictRunSeg, hck, hdt, hde, hdp, hwz, hlr]

set_option maxHeartbeats 4000000 in
/-- A `loadStateDict` event occurs in a full trace exactly when
`peft_args.lora_checkpoint` was supplied, and then it is the non-strict
load from `<lora_checkpoint>/pytorch_model.bin` of lines 93-98. -/
theorem loadStateDict_mem (ma : ModelArguments) (da : DataTrainingArguments)
    (pa : PeftArguments) (ta : Seq2SeqTrainingArguments) (env : Env)
    (p : String) (st : Bool) :
    Event.loadStateDict p st ∈ fullTrace ma da pa ta env ↔
      ∃ ckpt, pa.lora_checkpoint = some ckpt ∧ p = ckpt ++ "/pytorch_model.bin" ∧ st = false := by
  rcases hck : pa.lora_checkpoint with _ | ckpt <;>
  cases hdt : ta.do_train <;> cases hde : ta.do_eval <;> cases hdp : ta.do_predict <;>
  cases hwz : env.is_world_process_zero <;>
  rcases eq_or_ne ta.local_rank (-1) with hlr | hlr <;>
  simp [fullTrace, preambleTrace, trainPrepSeg, evalPrepSeg, predictPrepSeg,
    trainRunSeg, predictRunSeg, hck, hdt, hde, hdp, hwz, hlr, And.comm]

set_option maxHeartbeats 4000000 in
/-- A `shuffleSplit` event occurs in a full trace exactly when `do_train`
is set, and then it is the shuffle of the `"train"` split with
`training_args.seed` (line 128).  In particular the validation and test
splits are never shuffled. -/
theorem shuffleSplit_mem (ma : ModelArguments) (da : DataTrainingArguments)
    (pa : PeftArguments) (ta : Seq2SeqTrainingArguments) (env : Env)
    (s : String) (sd : Nat) :
    Event.shuffleSplit s sd ∈ fullTrace ma da pa ta env ↔
      ta.do_train = true ∧ s = "train" ∧ sd = ta.seed := by
  rcases hck : pa.lora_checkpoint with _ | ckpt <;>
  cases hdt : ta.do_train <;> cases hde : ta.do_eval <;> cases hdp : ta.do_predict <;>
  cases hwz : env.is_world_process_zero <;>
  rcases eq_or_ne ta.local_rank (-1) with hlr | hlr <;>
  simp [fullTrace, preambleTrace, trainPrepSeg, evalPrepSeg, predictPrepSeg,
    trainRunSeg, predictRunSeg, hck, hdt, hde, hdp, hwz, hlr]

set_option maxHeartbeats 4000000 in
/-- The only `setSeed` event in a full trace is
`set_seed(training_args.seed)` (line 71), and it is always present. -/
theorem setSeed_mem (ma : ModelArguments) (da : DataTrainingArguments)
    (pa : PeftArguments) (ta : Seq2SeqTrainingArguments) (env : Env) (sd : Nat) :
    Event.setSeed sd ∈ fullTrace ma da pa ta env ↔ sd = ta.seed := by
  rcases hck : pa.lora_checkpoint with _ | ckpt <;>
  cases hdt : ta.do_train <;> cases hde : ta.do_eval <;> cases hdp : ta.do_predict <;>
  cases hwz : env.is_world_process_zero <;>
  rcases eq_or_ne ta.local_rank (-1) with hlr | hlr <;>
  simp [fullTrace, preambleTrace, trainPrepSeg, evalPrepSeg, predictPrepSeg,
    trainRunSeg, predictRunSeg, hck, hdt, hde, hdp, hwz, hlr]

set_option maxHeartbeats 4000000 in
/-- A `trainerPredict` event occurs in a full trace exactly when
`do_predict` is set, and then it is the call of line 230:
`max_new_tokens=data_args.max_target_length`, `num_beams` equal to the
overridden `generation_num_beams` (that is, `1`), `do_sample=False`. -/
theorem trainerPredict_mem (ma : ModelArguments) (da : DataTrainingArguments)
    (pa : PeftArguments) (ta : Seq2SeqTrainingArguments) (env : Env)
    (mnt : Nat) (nb : Option Nat) (ds : Bool) :
    Event.trainerPredict mnt nb ds ∈ fullTrace ma da pa ta env ↔
      ta.do_predict = true ∧ mnt = da.max_target_length ∧ nb = some 1 ∧ ds = false := by
  rcases hck : pa.lora_checkpoint with _ | ckpt <;>
  cases hdt : ta.do_train <;> cases hde : ta.do_eval <;> cases hdp : ta.do_predict <;>
  cases hwz : env.is_world_process_zero <;>
  rcases eq_or_ne ta.local_rank (-1) with hlr | hlr <;>
  simp [fullTrace, preambleTrace, trainPrepSeg, evalPrepSeg, predictPrepSeg,
    trainRunSeg, predictRunSeg, overrideGenArgs, hck, hdt, hde, hdp, hwz, hlr]

set_option maxHeartbeats 4000000 in
/-- A `savePredictions` event occurs in a full trace exactly when
`do_predict` is set and the process is world-process zero, and then its
destination is `training_args.output_dir` (lines 237-238). -/
theorem savePredictions_mem (ma : ModelArguments) (da : DataTrainingArguments)
    (pa : PeftArguments) (ta : Seq2SeqTrainingArguments) (env : Env) (d : String) :
    Event.savePredictions d ∈ fullTrace ma da pa ta env ↔
      ta.do_predict = true ∧ env.is_world_process_zero = true ∧ d = ta.output_dir := by
  rcases hck : pa.lora_checkpoint with _ | ckpt <;>
  cases hdt : ta.do_train <;> cases hde : ta.do_eval <;> cases hdp : ta.do_predict <;>
  cases hwz : env.is_world_process_zero <;>
  rcases eq_or_ne ta.local_rank (-1) with hlr | hlr <;>
  simp [fullTrace, preambleTrace, trainPrepSeg, evalPrepSeg, predictPrepSeg,
    trainRunSeg, predictRunSeg, overrideGenArgs, hck, hdt, hde, hdp, hwz, hlr]

set_option maxHeartbeats 4000000 in
/-- A `mapPreprocess` event occurs in a full trace exactly for the splits
whose stage flag is set, with the preprocessing function the source maps
over that split (lines 131, 147, 162). -/
theorem mapPreprocess_mem (ma : ModelArguments) (da : DataTrainingArguments)
    (pa : PeftArguments) (ta : Seq2SeqTrainingArguments) (env : Env)
    (s fn : String) :
    Event.mapPreprocess s fn ∈ fullTrace ma da pa ta env ↔
      ((ta.do_train = true ∧ s = "train" ∧ fn = "preprocess_function_train") ∨
       (ta.do_eval = true ∧ s = "validation" ∧ fn = "preprocess_function_eval") ∨
       (ta.do_predict = true ∧ s = "test" ∧ fn = "preprocess_function_eval")) := by
  rcases hck : pa.lora_checkpoint with _ | ckpt <;>
  cases hdt : ta.do_train <;> cases hde : ta.do_eval <;> cases hdp : ta.do_predict <;>
  cases hwz : env.is_world_process_zero <;>
  rcases eq_or_ne ta.local_rank (-1) with hlr | hlr <;>
  simp [fullTrace, preambleTrace, trainPrepSeg, evalPrepSeg, predictPrepSeg,
    trainRunSeg, predictRunSeg, hck, hdt, hde, hdp, hwz, hlr]

set_option maxHeartbeats 4000000 in
/-- Each unconditional pipeline stage appears exactly once in a full
trace, and the trainer's optimization entry points are invoked at most
once each: `main` contains no loop of its own. -/
theorem fullTrace_stage_counts (ma : ModelArguments) (da : DataTrainingArguments)
    (pa : PeftArguments) (ta : Seq2SeqTrainingArguments) (env : Env) :
    (fullTrace ma da pa ta env).countP Event.isParseArgs = 1 ∧
    (fullTrace ma da pa ta env).countP Event.isSetSeed = 1 ∧
    (fullTrace ma da pa ta env).countP Event.isLoadTokenizer = 1 ∧
    (fullTrace ma da pa ta env).countP Event.isLoadPretrainedModel = 1 ∧
    (fullTrace ma da pa ta env).countP Event.isGetPeftModel = 1 ∧
    (fullTrace ma da pa ta env).countP Event.isBuildCollator = 1 ∧
    (fullTrace ma da pa ta env).countP Event.isConstructTrainer = 1 ∧
    (fullTrace ma da pa ta env).countP Event.isTrainerTrain ≤ 1 ∧
    (fullTrace ma da pa ta env).countP Event.isTrainerPredict ≤ 1 := by
  rcases hck : pa.lora_checkpoint with _ | ckpt <;>
  cases hdt : ta.do_train <;> cases hde : ta.do_eval <;> cases hdp : ta.do_predict <;>
  cases hwz : env.is_world_process_zero <;>
  rcases eq_or_ne ta.local_rank (-1) with hlr | hlr <;>
  simp [fullTrace, preambleTrace, trainPrepSeg, evalPrepSeg, predictPrepSeg,
    trainRunSeg, predictRunSeg, overrideGenArgs, hck, hdt, hde, hdp, hwz, hlr,
    List.countP_cons,
    Event.isParseArgs, Event.isSetSeed, Event.isLoadTokenizer,
    Event.isLoadPretrainedModel, Event.isGetPeftModel, Event.isBuildCollator,
    Event.isConstructTrainer, Event.isTrainerTrain, Event.isTrainerPredict]

set_option maxHeartbeats 1000000 in
/-- The preamble (the trace of a run that ends at or before line 122)
contains no preprocessing, no trainer construction, and no trainer
invocation. -/
theorem preambleTrace_no_stage_events (ma : ModelArguments) (pa : PeftArguments)
    (ta : Seq2SeqTrainingArguments) :
    (preambleTrace ma pa ta).countP Event.isShuffleSplit = 0 ∧
    (preambleTrace ma pa ta).countP Event.isMapPreprocess = 0 ∧
    (preambleTrace ma pa ta).countP Event.isBuildCollator = 0 ∧
    (preambleTrace ma pa ta).countP Event.isConstructTrainer = 0 ∧
    (preambleTrace ma pa ta).countP Event.isTrainerTrain = 0 ∧
    (preambleTrace ma pa ta).countP Event.isTrainerPredict = 0 ∧
    (preambleTrace ma pa ta).countP Event.isSavePredictions = 0 := by
  rcases hck : pa.lora_checkpoint with _ | ckpt <;>
  rcases eq_or_ne ta.local_rank (-1) with hlr | hlr <;>
  simp [preambleTrace, hck, hlr, List.countP_cons,
    Event.isShuffleSplit, Event.isMapPreprocess, Event.isBuildCollator,
    Event.isConstructTrainer, Event.isTrainerTrain, Event.isTrainerPredict,
    Event.isSavePredictions]

/-! ### Phases of the event classifiers -/

theorem phase_of_isParseArgs {e : Event} (h : e.isParseArgs = true) : e.phase = 0 := by
  cases e <;> simp_all [Event.isParseArgs, Event.phase]

theorem phase_of_isSetSeed {e : Event} (h : e.isSetSeed = true) : e.phase = 1 := by
  cases e <;> simp_all [Event.isSetSeed, Event.phase]

theorem phase_of_isLoadTokenizer {e : Event} (h : e.isLoadTokenizer = true) : e.phase = 2 := by
  cases e <;> simp_all [Event.isLoadTokenizer, Event.phase]

theorem phase_of_isLoadPretrainedModel {e : Event} (h : e.isLoadPretrainedModel = true) :
    e.phase = 3 := by
  cases e <;> simp_all [Event.isLoadPretrainedModel, Event.phase]

theorem phase_of_isGetPeftModel {e : Event} (h : e.isGetPeftModel = true) : e.phase = 4 := by
  cases e <;> simp_all [Event.isGetPeftModel, Event.phase]

theorem phase_of_isLoadStateDict {e : Event} (h : e.isLoadStateDict = true) : e.phase = 5 := by
  cases e <;> simp_all [Event.isLoadStateDict, Event.phase]

theorem phase_of_isShuffleSplit {e : Event} (h : e.isShuffleSplit = true) : e.phase = 8 := by
  cases e <;> simp_all [Event.isShuffleSplit, Event.phase]

theorem phase_of_isMapPreprocess {e : Event} (h : e.isMapPreprocess = true) : e.phase = 9 := by
  cases e <;> simp_all [Event.isMapPreprocess, Event.phase]

theorem phase_of_isConstructTrainer {e : Event} (h : e.isConstructTrainer = true) :
    e.phase = 11 := by
  cases e <;> simp_all [Event.isConstructTrainer, Event.phase]

theorem phase_of_isTrainerTrain {e : Event} (h : e.isTrainerTrain = true) : e.phase = 14 := by
  cases e <;> simp_all [Event.isTrainerTrain, Event.phase]

theorem phase_of_isTrainerPredict {e : Event} (h : e.isTrainerPredict = true) :
    e.phase = 18 := by
  cases e <;> simp_all [Event.isTrainerPredict, Event.phase]

theorem phase_of_isSavePredictions {e : Event} (h : e.isSavePredictions = true) :
    e.phase = 21 := by
  cases e <;> simp_all [Event.isSavePredictions, Event.phase]

/-! ## Concrete inputs used by the witnesses and counterexamples -/

/-- A typical model argument set. -/
def wMA : ModelArguments := { model_name_or_path := "THUDM/chatglm2-6b", cache_dir := none }

/-- A typical data argument set. -/
def wDA : DataTrainingArguments :=
  { max_source_length := 64, max_target_length := 128,
    ignore_pad_token_for_loss := true, preprocessing_num_workers := none,
    overwrite_cache := false }

/-- A typical LoRA argument set (rank supplied, no checkpoint). -/
def wPA : PeftArguments :=
  { lora_rank := some 8, lora_alpha := 32, lora_dropout := 0, lora_checkpoint := none }

/-- Training arguments with all three stage flags set; note the
command-line `generation_num_beams` of 4, which `main` overrides to 1. -/
def wTA : Seq2SeqTrainingArguments :=
  { do_train := true, do_eval := true, do_predict := true, seed := 42,
    output_dir := "output", local_rank := -1, resume_from_checkpoint := none,
    generation_max_length := none, generation_num_beams := some 4,
    ddp_find_unused_parameters := none, fp16 := false }

/-- A split with the usual prompt/response columns. -/
def wSplit : Dataset := { column_names := ["prompt", "response"] }

/-- An environment with all three splits present, on world-process zero. -/
def wEnv : Env :=
  { raw_datasets := { train := some wSplit, validation := some wSplit, test := some wSplit },
    pad_token_id := 3, is_world_process_zero := true }

/-! ## Claims -/

/-- **C1.** For every invocation of `main`, the pipeline stages occur in
this order: command-line parsing into the four argument dataclasses, then
`set_seed`, then tokenizer loading, then loading of the pretrained model
wrapped with trainable LoRA adapter weights, then preprocessing of the
selected dataset splits, and only after all of that the construction of
the external `Seq2SeqTrainer` and its invocation for training and/or
prediction.  Each unconditional stage happens exactly once and
`trainer.train` / `trainer.predict` are each called at most once: `main`
itself contains no optimization loop. -/
theorem C1_pipeline_order (ma : ModelArguments) (da : DataTrainingArguments)
    (pa : PeftArguments) (ta : Seq2SeqTrainingArguments) (env : Env) (tr : List Event)
    (h : main ma da pa ta env = Outcome.finished tr) :
    eventsBefore Event.isParseArgs Event.isSetSeed tr ∧
    eventsBefore Event.isSetSeed Event.isLoadTokenizer tr ∧
    eventsBefore Event.isLoadTokenizer Event.isLoadPretrainedModel tr ∧
    eventsBefore Event.isLoadPretrainedModel Event.isGetPeftModel tr ∧
    eventsBefore Event.isGetPeftModel Event.isMapPreprocess tr ∧
    eventsBefore Event.isMapPreprocess Event.isConstructTrainer tr ∧
    eventsBefore Event.isConstructTrainer Event.isTrainerTrain tr ∧
    eventsBefore Event.isConstructTrainer Event.isTrainerPredict tr ∧
    tr.countP Event.isParseArgs = 1 ∧
    tr.countP Event.isSetSeed = 1 ∧
    tr.countP Event.isLoadTokenizer = 1 ∧
    tr.countP Event.isLoadPretrainedModel = 1 ∧
    tr.countP Event.isGetPeftModel = 1 ∧
    tr.countP Event.isConstructTrainer = 1 ∧
    tr.countP Event.isTrainerTrain ≤ 1 ∧
    tr.countP Event.isTrainerPredict ≤ 1 := by
  have htr : tr = fullTrace ma da pa ta env := main_finished_trace h
  subst htr
  have hs := fullTrace_phase_pairwise ma da pa ta env
  obtain ⟨c1, c2, c3, c4, c5, _, c7, c8, c9⟩ := fullTrace_stage_counts ma da pa ta env
  refine ⟨?_, ?_, ?_, ?_, ?_, ?_, ?_, ?_, c1, c2, c3, c4, c5, c7, c8, c9⟩
  · exact eventsBefore_of_phase_lt hs (fun e e' he he' => by
      rw [phase_of_isParseArgs he, phase_of_isSetSeed he']; omega)
  · exact eventsBefore_of_phase_lt hs (fun e e' he he' => by
      rw [phase_of_isSetSeed he, phase_of_isLoadTokenizer he']; omega)
  · exact eventsBefore_of_phase_lt hs (fun e e' he he' => by
      rw [phase_of_isLoadTokenizer he, phase_of_isLoadPretrainedModel he']; omega)
  · exact eventsBefore_of_phase_lt hs (fun e e' he he' => by
      rw [phase_of_isLoadPretrainedModel he, phase_of_isGetPeftModel he']; omega)
  · exact eventsBefore_of_phase_lt hs (fun e e' he he' => by
      rw [phase_of_isGetPeftModel he, phase_of_isMapPreprocess he']; omega)
  · exact eventsBefore_of_phase_lt hs (fun e e' he he' => by
      rw [phase_of_isMapPreprocess he, phase_of_isConstructTrainer he']; omega)
  · exact eventsBefore_of_phase_lt hs (fun e e' he he' => by
      rw [phase_of_isConstructTrainer he, phase_of_isTrainerTrain he']; omega)
  · exact eventsBefore_of_phase_lt hs (fun e e' he he' => by
      rw [phase_of_isConstructTrainer he, phase_of_isTrainerPredict he']; omega)

/-- Witness for C1 at a concrete full-pipeline invocation. -/
theorem C1_pipeline_order_witness :
    main wMA wDA wPA wTA wEnv = Outcome.finished (fullTrace wMA wDA wPA wTA wEnv) ∧
    (eventsBefore Event.isParseArgs Event.isSetSeed (fullTrace wMA wDA wPA wTA wEnv) ∧
     eventsBefore Event.isSetSeed Event.isLoadTokenizer (fullTrace wMA wDA wPA wTA wEnv) ∧
     eventsBefore Event.isLoadTokenizer Event.isLoadPretrainedModel (fullTrace wMA wDA wPA wTA wEnv) ∧
     eventsBefore Event.isLoadPretrainedModel Event.isGetPeftModel (fullTrace wMA wDA wPA wTA wEnv) ∧
     eventsBefore Event.isGetPeftModel Event.isMapPreprocess (fullTrace wMA wDA wPA wTA wEnv) ∧
     eventsBefore Event.isMapPreprocess Event.isConstructTrainer (fullTrace wMA wDA wPA wTA wEnv) ∧
     eventsBefore Event.isConstructTrainer Event.isTrainerTrain (fullTrace wMA wDA wPA wTA wEnv) ∧
     eventsBefore Event.isConstructTrainer Event.isTrainerPredict (fullTrace wMA wDA wPA wTA wEnv) ∧
     (fullTrace wMA wDA wPA wTA wEnv).countP Event.isParseArgs = 1 ∧
     (fullTrace wMA wDA wPA wTA wEnv).countP Event.isSetSeed = 1 ∧
     (fullTrace wMA wDA wPA wTA wEnv).countP Event.isLoadTokenizer = 1 ∧
     (fullTrace wMA wDA wPA wTA wEnv).countP Event.isLoadPretrainedModel = 1 ∧
     (fullTrace wMA wDA wPA wTA wEnv).countP Event.isGetPeftModel = 1 ∧
     (fullTrace wMA wDA wPA wTA wEnv).countP Event.isConstructTrainer = 1 ∧
     (fullTrace wMA wDA wPA wTA wEnv).countP Event.isTrainerTrain ≤ 1 ∧
     (fullTrace wMA wDA wPA wTA wEnv).countP Event.isTrainerPredict ≤ 1) :=
  ⟨by decide, C1_pipeline_order wMA wDA wPA wTA wEnv _ (by decide)⟩

/-- **C2.** For every invocation of `main` that reaches trainer
construction, the pretrained model loaded from
`model_args.model_name_or_path` is wrapped with a LoRA adapter configured
with `task_type CAUSAL_LM`, `inference_mode False`, rank
`peft_args.lora_rank`, alpha `peft_args.lora_alpha`, dropout
`peft_args.lora_dropout` and target modules exactly
`["query_key_value"]`, and this wrapped (half-precision, CUDA-placed)
model is the one handed to the trainer. -/
theorem C2_lora_wrapping (ma : ModelArguments) (da : DataTrainingArguments)
    (pa : PeftArguments) (ta : Seq2SeqTrainingArguments) (env : Env) (tr : List Event)
    (h : main ma da pa ta env = Outcome.finished tr) :
    Event.getPeftModel
      { task_type := TaskType.CAUSAL_LM, inference_mode := false, r := pa.lora_rank,
        lora_alpha := pa.lora_alpha, lora_dropout := pa.lora_dropout,
        target_modules := ["query_key_value"] } ∈ tr ∧
    (∀ cfg, Event.getPeftModel cfg ∈ tr →
      cfg = { task_type := TaskType.CAUSAL_LM, inference_mode := false, r := pa.lora_rank,
              lora_alpha := pa.lora_alpha, lora_dropout := pa.lora_dropout,
              target_modules := ["query_key_value"] }) ∧
    (∀ tc, Event.constructTrainer tc ∈ tr →
      tc.model = Model.cuda (Model.peft
        (Model.half (Model.pretrained ma.model_name_or_path))
        { task_type := TaskType.CAUSAL_LM, inference_mode := false, r := pa.lora_rank,
          lora_alpha := pa.lora_alpha, lora_dropout := pa.lora_dropout,
          target_modules := ["query_key_value"] })) ∧
    (∃ tc, Event.constructTrainer tc ∈ tr) := by
  have htr := main_finished_trace h
  subst htr
  refine ⟨(getPeftModel_mem ma da pa ta env _).mpr rfl, ?_, ?_, ?_⟩
  · intro cfg hcfg
    exact (getPeftModel_mem ma da pa ta env cfg).mp hcfg
  · intro tc htc
    have htc' := (constructTrainer_mem ma da pa ta env tc).mp htc
    subst htc'
    rfl
  · exact ⟨_, (constructTrainer_mem ma da pa ta env _).mpr rfl⟩

/-- Witness for C2 at a concrete full-pipeline invocation. -/
theorem C2_lora_wrapping_witness :
    main wMA wDA wPA wTA wEnv = Outcome.finished (fullTrace wMA wDA wPA wTA wEnv) ∧
    (Event.getPeftModel
      { task_type := TaskType.CAUSAL_LM, inference_mode := false, r := wPA.lora_rank,
        lora_alpha := wPA.lora_alpha, lora_dropout := wPA.lora_dropout,
        target_modules := ["query_key_value"] } ∈ fullTrace wMA wDA wPA wTA wEnv ∧
    (∀ cfg, Event.getPeftModel cfg ∈ fullTrace wMA wDA wPA wTA wEnv →
      cfg = { task_type := TaskType.CAUSAL_LM, inference_mode := false, r := wPA.lora_rank,
              lora_alpha := wPA.lora_alpha, lora_dropout := wPA.lora_dropout,
              target_modules := ["query_key_value"] }) ∧
    (∀ tc, Event.constructTrainer tc ∈ fullTrace wMA wDA wPA wTA wEnv →
      tc.model = Model.cuda (Model.peft
        (Model.half (Model.pretrained wMA.model_name_or_path))
        { task_type := TaskType.CAUSAL_LM, inference_mode := false, r := wPA.lora_rank,
          lora_alpha := wPA.lora_alpha, lora_dropout := wPA.lora_dropout,
          target_modules := ["query_key_value"] })) ∧
    (∃ tc, Event.constructTrainer tc ∈ fullTrace wMA wDA wPA wTA wEnv)) :=
  ⟨by decide, C2_lora_wrapping wMA wDA wPA wTA wEnv _ (by decide)⟩

/-- **C4.** For every invocation of `main` that constructs the trainer,
the selective-checkpoint-saving switch `save_changed` passed to the
trainer is true if and only if `peft_args.lora_rank` is not `None`
(line 202). -/
theorem C4_save_changed (ma : ModelArguments) (da : DataTrainingArguments)
    (pa : PeftArguments) (ta : Seq2SeqTrainingArguments) (env : Env) (tr : List Event)
    (h : main ma da pa ta env = Outcome.finished tr)
    (tc : TrainerCtor) (htc : Event.constructTrainer tc ∈ tr) :
    tc.save_changed = pa.lora_rank.isSome ∧
    (tc.save_changed = true ↔ pa.lora_rank ≠ none) := by
  have htr := main_finished_trace h
  subst htr
  have htc' := (constructTrainer_mem ma da pa ta env tc).mp htc
  subst htc'
  exact ⟨rfl, by simp [mkTrainerCtor, Option.isSome_iff_ne_none]⟩

/-- Witness for C4: with `lora_rank = some 8` the switch is on. -/
theorem C4_save_changed_witness :
    (main wMA wDA wPA wTA wEnv = Outcome.finished (fullTrace wMA wDA wPA wTA wEnv) ∧
     Event.constructTrainer
       (mkTrainerCtor (modelOf wMA wPA) (overrideGenArgs wDA wTA) (collatorOf wDA wEnv) wPA)
       ∈ fullTrace wMA wDA wPA wTA wEnv) ∧
    ((mkTrainerCtor (modelOf wMA wPA) (overrideGenArgs wDA wTA) (collatorOf wDA wEnv) wPA).save_changed
        = wPA.lora_rank.isSome ∧
     ((mkTrainerCtor (modelOf wMA wPA) (overrideGenArgs wDA wTA) (collatorOf wDA wEnv) wPA).save_changed
        = true ↔ wPA.lora_rank ≠ none)) :=
  ⟨⟨by decide, by decide⟩,
   C4_save_changed wMA wDA wPA wTA wEnv (fullTrace wMA wDA wPA wTA wEnv) (by decide)
     (mkTrainerCtor (modelOf wMA wPA) (overrideGenArgs wDA wTA) (collatorOf wDA wEnv) wPA)
     (by decide)⟩

/-- **C6.** When none of `do_train`, `do_eval`, `do_predict` is set,
`main` returns early at line 122 with only the preamble performed: no
dataset preprocessing, no trainer construction, no training, no
prediction. -/
theorem C6_nothing_to_do (ma : ModelArguments) (da : DataTrainingArguments)
    (pa : PeftArguments) (ta : Seq2SeqTrainingArguments) (env : Env)
    (h1 : ta.do_train = false) (h2 : ta.do_eval = false) (h3 : ta.do_predict = false) :
    main ma da pa ta env = Outcome.nothingToDo (preambleTrace ma pa ta) ∧
    (preambleTrace ma pa ta).countP Event.isShuffleSplit = 0 ∧
    (preambleTrace ma pa ta).countP Event.isMapPreprocess = 0 ∧
    (preambleTrace ma pa ta).countP Event.isConstructTrainer = 0 ∧
    (preambleTrace ma pa ta).countP Event.isTrainerTrain = 0 ∧
    (preambleTrace ma pa ta).countP Event.isTrainerPredict = 0 := by
  obtain ⟨z1, z2, _, z4, z5, z6, _⟩ := preambleTrace_no_stage_events ma pa ta
  refine ⟨?_, z1, z2, z4, z5, z6⟩
  unfold main selectColumnNames
  simp [h1, h2, h3]

/-- Training arguments with no stage flag set. -/
def wTA0 : Seq2SeqTrainingArguments :=
  { wTA with do_train := false, do_eval := false, do_predict := false }

/-- Witness for C6 with all three flags off. -/
theorem C6_nothing_to_do_witness :
    ((wTA0.do_train = false ∧ wTA0.do_eval = false ∧
      wTA0.do_predict = false) ∧
     main wMA wDA wPA wTA0 wEnv
       = Outcome.nothingToDo (preambleTrace wMA wPA wTA0) ∧
     (preambleTrace wMA wPA wTA0).countP Event.isShuffleSplit = 0 ∧
     (preambleTrace wMA wPA wTA0).countP Event.isMapPreprocess = 0 ∧
     (preambleTrace wMA wPA wTA0).countP Event.isConstructTrainer = 0 ∧
     (preambleTrace wMA wPA wTA0).countP Event.isTrainerTrain = 0 ∧
     (preambleTrace wMA wPA wTA0).countP Event.isTrainerPredict = 0) :=
  ⟨⟨rfl, rfl, rfl⟩,
   C6_nothing_to_do wMA wDA wPA wTA0 wEnv rfl rfl rfl⟩

/-- **C8.** The user-supplied generation settings are overridden before
trainer construction: `generation_max_length` becomes
`max_source_length + max_target_length + 1` and `generation_num_beams`
becomes `1` regardless of their command-line values (lines 186-187), and
prediction is invoked with `do_sample=False`, `num_beams` equal to that
overridden value `1`, and `max_new_tokens = max_target_length`
(line 230). -/
theorem C8_generation_overrides (ma : ModelArguments) (da : DataTrainingArguments)
    (pa : PeftArguments) (ta : Seq2SeqTrainingArguments) (env : Env) (tr : List Event)
    (h : main ma da pa ta env = Outcome.finished tr) :
    (∀ tc, Event.constructTrainer tc ∈ tr →
      tc.args.generation_max_length
          = some (da.max_source_length + da.max_target_length + 1) ∧
      tc.args.generation_num_beams = some 1) ∧
    (∀ mnt nb ds, Event.trainerPredict mnt nb ds ∈ tr →
      mnt = da.max_target_length ∧ nb = some 1 ∧ ds = false) ∧
    (ta.do_predict = true →
      Event.trainerPredict da.max_target_length (some 1) false ∈ tr) := by
  have htr := main_finished_trace h
  subst htr
  refine ⟨?_, ?_, ?_⟩
  · intro tc htc
    have htc' := (constructTrainer_mem ma da pa ta env tc).mp htc
    subst htc'
    exact ⟨rfl, rfl⟩
  · intro mnt nb ds hm
    have := (trainerPredict_mem ma da pa ta env mnt nb ds).mp hm
    exact ⟨this.2.1, this.2.2.1, this.2.2.2⟩
  · intro hdp
    exact (trainerPredict_mem ma da pa ta env _ _ _).mpr ⟨hdp, rfl, rfl, rfl⟩

/-- Witness for C8: the command line asked for 4 beams, the trainer gets
1 beam and the overridden maximum length. -/
theorem C8_generation_overrides_witness :
    main wMA wDA wPA wTA wEnv = Outcome.finished (fullTrace wMA wDA wPA wTA wEnv) ∧
    ((∀ tc, Event.constructTrainer tc ∈ fullTrace wMA wDA wPA wTA wEnv →
      tc.args.generation_max_length
          = some (wDA.max_source_length + wDA.max_target_length + 1) ∧
      tc.args.generation_num_beams = some 1) ∧
    (∀ mnt nb ds, Event.trainerPredict mnt nb ds ∈ fullTrace wMA wDA wPA wTA wEnv →
      mnt = wDA.max_target_length ∧ nb = some 1 ∧ ds = false) ∧
    (wTA.do_predict = true →
      Event.trainerPredict wDA.max_target_length (some 1) false
        ∈ fullTrace wMA wDA wPA wTA wEnv)) :=
  ⟨by decide, C8_generation_overrides wMA wDA wPA wTA wEnv _ (by decide)⟩

/-- **C9.** The data collator is constructed with
`label_pad_token_id = -100` exactly when
`data_args.ignore_pad_token_for_loss` is set and with
`tokenizer.pad_token_id` otherwise, and always with `padding=False` and
`pad_to_multiple_of=None` (lines 173-180). -/
theorem C9_collator (ma : ModelArguments) (da : DataTrainingArguments)
    (pa : PeftArguments) (ta : Seq2SeqTrainingArguments) (env : Env) (tr : List Event)
    (h : main ma da pa ta env = Outcome.finished tr) :
    (∃ c, Event.buildCollator c ∈ tr) ∧
    (∀ c, Event.buildCollator c ∈ tr →
      ((c.label_pad_token_id = -100) ↔ da.ignore_pad_token_for_loss = true) ∧
      (da.ignore_pad_token_for_loss = false →
        c.label_pad_token_id = (env.pad_token_id : Int)) ∧
      c.padding = false ∧ c.pad_to_multiple_of = none) := by
  have htr := main_finished_trace h
  subst htr
  refine ⟨⟨_, (buildCollator_mem ma da pa ta env _).mpr rfl⟩, ?_⟩
  intro c hc
  have hc' := (buildCollator_mem ma da pa ta env c).mp hc
  subst hc'
  refine ⟨?_, ?_, rfl, rfl⟩
  · cases hip : da.ignore_pad_token_for_loss <;> simp [collatorOf, hip]
  · intro hip
    simp [collatorOf, hip]

/-- Witness for C9 with `ignore_pad_token_for_loss = true`. -/
theorem C9_collator_witness :
    main wMA wDA wPA wTA wEnv = Outcome.finished (fullTrace wMA wDA wPA wTA wEnv) ∧
    ((∃ c, Event.buildCollator c ∈ fullTrace wMA wDA wPA wTA wEnv) ∧
    (∀ c, Event.buildCollator c ∈ fullTrace wMA wDA wPA wTA wEnv →
      ((c.label_pad_token_id = -100) ↔ wDA.ignore_pad_token_for_loss = true) ∧
      (wDA.ignore_pad_token_for_loss = false →
        c.label_pad_token_id = (wEnv.pad_token_id : Int)) ∧
      c.padding = false ∧ c.pad_to_multiple_of = none)) :=
  ⟨by decide, C9_collator wMA wDA wPA wTA wEnv _ (by decide)⟩

/-- **C10.** When `do_train` is set, the training split — and only the
training split — is shuffled, with `training_args.seed`, the same seed
passed to `set_seed` (lines 71 and 128), and the shuffle precedes all
preprocessing; any shuffle event is of the `"train"` split with that
seed, so the validation and test splits are preprocessed in their
original order, and the shuffle argument is a deterministic function of
`training_args.seed`. -/
theorem C10_train_shuffle (ma : ModelArguments) (da : DataTrainingArguments)
    (pa : PeftArguments) (ta : Seq2SeqTrainingArguments) (env : Env) (tr : List Event)
    (h : main ma da pa ta env = Outcome.finished tr) :
    (ta.do_train = true → Event.shuffleSplit "train" ta.seed ∈ tr) ∧
    (∀ s sd, Event.shuffleSplit s sd ∈ tr →
      s = "train" ∧ sd = ta.seed ∧ ta.do_train = true) ∧
    Event.setSeed ta.seed ∈ tr ∧
    eventsBefore Event.isShuffleSplit Event.isMapPreprocess tr := by
  have htr := main_finished_trace h
  subst htr
  refine ⟨?_, ?_, (setSeed_mem ma da pa ta env _).mpr rfl, ?_⟩
  · intro hdt
    exact (shuffleSplit_mem ma da pa ta env _ _).mpr ⟨hdt, rfl, rfl⟩
  · intro s sd hm
    have := (shuffleSplit_mem ma da pa ta env s sd).mp hm
    exact ⟨this.2.1, this.2.2, this.1⟩
  · exact eventsBefore_of_phase_lt (fullTrace_phase_pairwise ma da pa ta env)
      (fun e e' he he' => by
        rw [phase_of_isShuffleSplit he, phase_of_isMapPreprocess he']; omega)

/-- Witness for C10 at a concrete full-pipeline invocation. -/
theorem C10_train_shuffle_witness :
    main wMA wDA wPA wTA wEnv = Outcome.finished (fullTrace wMA wDA wPA wTA wEnv) ∧
    ((wTA.do_train = true →
        Event.shuffleSplit "train" wTA.seed ∈ fullTrace wMA wDA wPA wTA wEnv) ∧
    (∀ s sd, Event.shuffleSplit s sd ∈ fullTrace wMA wDA wPA wTA wEnv →
      s = "train" ∧ sd = wTA.seed ∧ wTA.do_train = true) ∧
    Event.setSeed wTA.seed ∈ fullTrace wMA wDA wPA wTA wEnv ∧
    eventsBefore Event.isShuffleSplit Event.isMapPreprocess
      (fullTrace wMA wDA wPA wTA wEnv)) :=
  ⟨by decide, C10_train_shuffle wMA wDA wPA wTA wEnv _ (by decide)⟩

/-- **C7.** When `peft_args.lora_checkpoint` is supplied, the adapter
weights are loaded non-strictly (`strict=False`) from
`pytorch_model.bin` inside the checkpoint directory, after LoRA wrapping
and before trainer construction or training (lines 93-98); when it is
`None` no such load occurs (any `loadStateDict` event implies a supplied
checkpoint). -/
theorem C7_lora_checkpoint_load (ma : ModelArguments) (da : DataTrainingArguments)
    (pa : PeftArguments) (ta : Seq2SeqTrainingArguments) (env : Env) (tr : List Event)
    (h : main ma da pa ta env = Outcome.finished tr) :
    (∀ ckpt, pa.lora_checkpoint = some ckpt →
      Event.loadStateDict (ckpt ++ "/pytorch_model.bin") false ∈ tr) ∧
    (∀ p st, Event.loadStateDict p st ∈ tr →
      st = false ∧ ∃ ckpt, pa.lora_checkpoint = some ckpt ∧
        p = ckpt ++ "/pytorch_model.bin") ∧
    eventsBefore Event.isGetPeftModel Event.isLoadStateDict tr ∧
    eventsBefore Event.isLoadStateDict Event.isConstructTrainer tr ∧
    eventsBefore Event.isLoadStateDict Event.isTrainerTrain tr := by
  have htr := main_finished_trace h
  subst htr
  refine ⟨?_, ?_, ?_, ?_, ?_⟩
  · intro ckpt hck
    exact (loadStateDict_mem ma da pa ta env _ _).mpr ⟨ckpt, hck, rfl, rfl⟩
  · intro p st hm
    obtain ⟨ckpt, h1, h2, h3⟩ := (loadStateDict_mem ma da pa ta env p st).mp hm
    exact ⟨h3, ckpt, h1, h2⟩
  · exact eventsBefore_of_phase_lt (fullTrace_phase_pairwise ma da pa ta env)
      (fun e e' he he' => by
        rw [phase_of_isGetPeftModel he, phase_of_isLoadStateDict he']; omega)
  · exact eventsBefore_of_phase_lt (fullTrace_phase_pairwise ma da pa ta env)
      (fun e e' he he' => by
        rw [phase_of_isLoadStateDict he, phase_of_isConstructTrainer he']; omega)
  · exact eventsBefore_of_phase_lt (fullTrace_phase_pairwise ma da pa ta env)
      (fun e e' he he' => by
        rw [phase_of_isLoadStateDict he, phase_of_isTrainerTrain he']; omega)

/-- LoRA arguments with a checkpoint directory supplied. -/
def wPAck : PeftArguments := { wPA with lora_checkpoint := some "saved_lora" }

/-- Witness for C7 with `lora_checkpoint = some "saved_lora"`. -/
theorem C7_lora_checkpoint_load_witness :
    main wMA wDA wPAck wTA wEnv = Outcome.finished (fullTrace wMA wDA wPAck wTA wEnv) ∧
    ((∀ ckpt, wPAck.lora_checkpoint = some ckpt →
      Event.loadStateDict (ckpt ++ "/pytorch_model.bin") false
        ∈ fullTrace wMA wDA wPAck wTA wEnv) ∧
    (∀ p st, Event.loadStateDict p st ∈ fullTrace wMA wDA wPAck wTA wEnv →
      st = false ∧ ∃ ckpt, wPAck.lora_checkpoint = some ckpt ∧
        p = ckpt ++ "/pytorch_model.bin") ∧
    eventsBefore Event.isGetPeftModel Event.isLoadStateDict
      (fullTrace wMA wDA wPAck wTA wEnv) ∧
    eventsBefore Event.isLoadStateDict Event.isConstructTrainer
      (fullTrace wMA wDA wPAck wTA wEnv) ∧
    eventsBefore Event.isLoadStateDict Event.isTrainerTrain
      (fullTrace wMA wDA wPAck wTA wEnv)) :=
  ⟨by decide, C7_lora_checkpoint_load wMA wDA wPAck wTA wEnv _ (by decide)⟩

/-- **C5 (amended).** Prediction-saving is delegated to the
`save_predictions` helper imported from the `evaluator` module, not to a
method of the trainer object: for every invocation with `do_predict` set,
after `trainer.predict` returns, the decoded predictions are persisted to
`training_args.output_dir` by `save_predictions`, and this saving happens
only on the world-process-zero rank (lines 237-238). -/
theorem C5_save_predictions_delegation (ma : ModelArguments) (da : DataTrainingArguments)
    (pa : PeftArguments) (ta : Seq2SeqTrainingArguments) (env : Env) (tr : List Event)
    (h : main ma da pa ta env = Outcome.finished tr) :
    (ta.do_predict = true → env.is_world_process_zero = true →
      Event.savePredictions ta.output_dir ∈ tr) ∧
    (∀ d, Event.savePredictions d ∈ tr →
      d = ta.output_dir ∧ ta.do_predict = true ∧ env.is_world_process_zero = true ∧
      (Event.savePredictions d).isTrainerOp = false) ∧
    eventsBefore Event.isTrainerPredict Event.isSavePredictions tr := by
  have htr := main_finished_trace h
  subst htr
  refine ⟨?_, ?_, ?_⟩
  · intro hdp hwz
    exact (savePredictions_mem ma da pa ta env _).mpr ⟨hdp, hwz, rfl⟩
  · intro d hm
    have := (savePredictions_mem ma da pa ta env d).mp hm
    exact ⟨this.2.2, this.1, this.2.1, rfl⟩
  · exact eventsBefore_of_phase_lt (fullTrace_phase_pairwise ma da pa ta env)
      (fun e e' he he' => by
        rw [phase_of_isTrainerPredict he, phase_of_isSavePredictions he']; omega)

/-- Witness for the amended C5 at a concrete predicting invocation on
world-process zero. -/
theorem C5_save_predictions_delegation_witness :
    main wMA wDA wPA wTA wEnv = Outcome.finished (fullTrace wMA wDA wPA wTA wEnv) ∧
    ((wTA.do_predict = true → wEnv.is_world_process_zero = true →
      Event.savePredictions wTA.output_dir ∈ fullTrace wMA wDA wPA wTA wEnv) ∧
    (∀ d, Event.savePredictions d ∈ fullTrace wMA wDA wPA wTA wEnv →
      d = wTA.output_dir ∧ wTA.do_predict = true ∧ wEnv.is_world_process_zero = true ∧
      (Event.savePredictions d).isTrainerOp = false) ∧
    eventsBefore Event.isTrainerPredict Event.isSavePredictions
      (fullTrace wMA wDA wPA wTA wEnv)) :=
  ⟨by decide, C5_save_predictions_delegation wMA wDA wPA wTA wEnv _ (by decide)⟩

/-- **C5 counterexample.** The claim as stated — that the decoded
predictions are persisted *by the trainer* — is false on the code: at a
concrete predicting invocation the trace contains exactly one
prediction-saving event, and no event of the run is both a
prediction-saving event and an operation of the trainer object.  The
saving call is `save_predictions(...)`, a free function imported from the
`evaluator` module (line 26), applied at line 238. -/
theorem C5_not_by_trainer_counterexample :
    main wMA wDA wPA wTA wEnv = Outcome.finished (fullTrace wMA wDA wPA wTA wEnv) ∧
    (fullTrace wMA wDA wPA wTA wEnv).countP Event.isSavePredictions = 1 ∧
    (fullTrace wMA wDA wPA wTA wEnv).countP
      (fun e => e.isSavePredictions && e.isTrainerOp) = 0 := by
  refine ⟨by decide, by decide, by decide⟩

/-- Datasets with the train split missing. -/
def noTrainDict : DatasetDict :=
  { train := none, validation := some wSplit, test := some wSplit }

/-- Datasets with the validation split missing. -/
def noValDict : DatasetDict :=
  { train := some wSplit, validation := none, test := some wSplit }

/-- Datasets with the test split missing. -/
def noTestDict : DatasetDict :=
  { train := some wSplit, validation := some wSplit, test := none }

/-- **C3 (code bug).** The claim — matching the intent of the in-code
checks `raise ValueError("--do_train requires a train dataset")`
(lines 125-126, 141-143, 157-159) — says `main` raises `ValueError` when
a stage's flag is set and its split is missing.  But the `column_names`
selection at lines 114-119 indexes `raw_datasets[...]` *before* those
checks run, so whenever the missing split belongs to the first set flag
(in the order train, validation, test) the lookup raises `KeyError` and
the `ValueError` check is unreachable; for `do_train` it is dead code.
In every case no preprocessing has occurred.  The final conjunct shows
the `ValueError` is reachable only behind an earlier flag: with
`do_train` and `do_eval` set and validation missing, line 143 does raise
`ValueError` — after the train split was already preprocessed. -/
theorem C3_missing_split_keyerror :
    (main wMA wDA wPA { wTA with do_eval := false, do_predict := false }
        { wEnv with raw_datasets := noTrainDict }
      = Outcome.raised (PyError.keyError "train")
          (preambleTrace wMA wPA { wTA with do_eval := false, do_predict := false })) ∧
    (main wMA wDA wPA { wTA with do_train := false, do_predict := false }
        { wEnv with raw_datasets := noValDict }
      = Outcome.raised (PyError.keyError "validation")
          (preambleTrace wMA wPA { wTA with do_train := false, do_predict := false })) ∧
    (main wMA wDA wPA { wTA with do_train := false, do_eval := false }
        { wEnv with raw_datasets := noTestDict }
      = Outcome.raised (PyError.keyError "test")
          (preambleTrace wMA wPA { wTA with do_train := false, do_eval := false })) ∧
    (preambleTrace wMA wPA wTA).countP Event.isMapPreprocess = 0 ∧
    (main wMA wDA wPA { wTA with do_predict := false }
        { wEnv with raw_datasets := noValDict }
      = Outcome.raised (PyError.valueError "--do_eval requires a validation dataset")
          (preambleTrace wMA wPA { wTA with do_predict := false }
            ++ trainPrepSeg { wTA with do_predict := false })) := by
  refine ⟨by decide, by decide, by decide, by decide, by decide⟩

end MainLora
